import Mathlib

/-!
Verification of the claw-world event-normalization layer.

Shallow embedding of `src/shared/adapters/claude-code-adapter.ts`,
`src/shared/adapters/index.ts` and the generic pass-through adapter
(`GenericAdapter.normalize`).  Raw JavaScript objects are modelled as a
record of optional fields (`Obj`); `undefined` is `none`.  JavaScript
string/number truthiness is modelled explicitly (`""` and `0` are falsy).
`crypto.randomUUID()` and `Date.now()` are modelled as explicit
parameters carried in an `Env`; the WHATWG URL parser used by
`new URL(url).hostname` is modelled as an abstract function
`Env.parseHostname` (returning `none` when the constructor would throw).
An adapter `normalize` call that would throw a `TypeError` is modelled
as `Except.error ()`; a JS `null` return is `Except.ok none`.
-/

namespace ClawWorld

/-- JavaScript truthiness of an optional string field (`undefined` and `""` are falsy). -/
def strTruthy : Option String → Bool
  | some s => s ≠ ""
  | none => false

/-- JavaScript truthiness of an optional number field (`undefined` and `0` are falsy). -/
def numTruthy : Option Int → Bool
  | some n => n ≠ 0
  | none => false

/-- JavaScript `a || b` on two optional string fields. -/
def jsOrStr (a b : Option String) : Option String :=
  if strTruthy a then a else b

/-- JavaScript `a || fresh` where `fresh` is a freshly generated string
(e.g. `raw.id as string || crypto.randomUUID()`). -/
def fillStr (a : Option String) (fresh : String) : String :=
  match a with
  | some s => if s ≠ "" then s else fresh
  | none => fresh

/-- JavaScript `a || now` where `now` is `Date.now()`
(e.g. `raw.timestamp as number || Date.now()`). -/
def fillNum (a : Option Int) (now : Int) : Int :=
  match a with
  | some n => if n ≠ 0 then n else now
  | none => now

/-- The value `categorize(toolName)` evaluates to.  The direct-table
branch of the source tests `toolName in CLAUDE_TOOL_CATEGORIES`, and the
JS `in` operator on a plain object literal also matches the property
keys inherited from `Object.prototype`; for such a key the indexing
expression returns the inherited member (a function), not a category
string. -/
inductive CategorizeResult where
  | category (c : String)
  | inheritedMember (key : String)
deriving DecidableEq, Repr

/-- The category-string part of a `categorize` result (an inherited
function member is not a string). -/
def CategorizeResult.categoryStr : CategorizeResult → Option String
  | .category c => some c
  | .inheritedMember _ => none

/-- The inherited `Object.prototype` key of a `categorize` result, when
the result is an inherited member rather than a category string. -/
def CategorizeResult.inheritedKey : CategorizeResult → Option String
  | .category _ => none
  | .inheritedMember k => some k

/-- The `tool` object of a canonical tool event: `{name, category, id}`.
The JS value stored in the `category` slot is either a string (the
`category` field) or, for a dynamically looked-up inherited
`Object.prototype` member, a function — recorded by its key in
`inheritedCategoryMember` since the model's string field cannot hold a
function value (at most one of the two is `some`). -/
structure RawTool where
  name : Option String := none
  category : Option String := none
  inheritedCategoryMember : Option String := none
  id : Option String := none
deriving DecidableEq, Repr

/-- The `tool` field of a raw payload: Claude Code hooks carry a tool *name*
string, canonical events carry a `{name, category, id}` object. -/
inductive ToolField where
  | str (s : String)
  | obj (t : RawTool)
deriving DecidableEq, Repr

/-- The `toolInput` object of a `pre_tool_use` hook (the fields read by
`extractContext`). -/
structure ToolInput where
  file_path : Option String := none
  notebook_path : Option String := none
  command : Option String := none
  pattern : Option String := none
  url : Option String := none
  query : Option String := none
  description : Option String := none
deriving DecidableEq, Repr

/-- A companion event embedded under `metadata._alsoEmit`
(`SubagentSpawnEvent` / `SubagentEndEvent`; built from `base`, so it
never carries a metadata bag of its own). -/
structure SubEvent where
  id : String
  timestamp : Int
  agentId : Option String := none
  source : String
  cwd : Option String := none
  type : String
  parentAgentId : Option String := none
  description : Option String := none
  toolUseId : Option String := none
deriving DecidableEq, Repr

/-- The `metadata` bag of an event.  The Claude Code adapter writes either
`{ _alsoEmit: companionEvent }` (Task tool) or `{ trigger: raw.trigger }`
(`pre_compact`); the generic adapter passes an arbitrary caller-supplied
bag through unchanged, modelled by the opaque `passthru` constructor. -/
inductive MetaBag where
  | alsoEmit (e : SubEvent)
  | trigMeta (t : Option String)
  | passthru (tag : Nat)
deriving DecidableEq, Repr

/-- A raw JavaScript event object (also the shape of normalized events):
every field the adapters read or write, each optional (`none` = absent /
`undefined`).  Opaque record-valued fields (`toolResponse`, `output`) are
modelled as `Option Nat` tags since the adapters only move them around. -/
structure Obj where
  id : Option String := none
  timestamp : Option Int := none
  type : Option String := none
  agentId : Option String := none
  source : Option String := none
  sessionId : Option String := none
  cwd : Option String := none
  tool : Option ToolField := none
  toolInput : Option ToolInput := none
  toolUseId : Option String := none
  success : Option Bool := none
  duration : Option Int := none
  toolResponse : Option Nat := none
  response : Option String := none
  reason : Option String := none
  prompt : Option String := none
  message : Option String := none
  trigger : Option String := none
  metadata : Option MetaBag := none
  input : Option ToolInput := none
  context : Option String := none
  output : Option Nat := none
  text : Option String := none
  level : Option String := none
  parentAgentId : Option String := none
deriving DecidableEq, Repr

/-- Ambient effects of a `normalize` call: the values produced by
`crypto.randomUUID()` (one for the event id, one for a synthesized
tool id), `Date.now()`, and the platform URL parser
(`parseHostname url = none` models `new URL(url)` throwing). -/
structure Env where
  parseHostname : String → Option String
  freshId : String
  freshToolId : String
  now : Int

/-- Substring containment over a character sequence (the JS
`String.prototype.includes`), computed structurally. -/
def isInfixOfL (sub : List Char) : List Char → Bool
  | [] => sub.isEmpty
  | c :: cs => sub.isPrefixOf (c :: cs) || isInfixOfL sub cs

/-- `s.includes(sub)` on strings. -/
def strIncludes (s sub : String) : Bool :=
  isInfixOfL sub.data s.data

/-- `s.startsWith(p)` on strings. -/
def startsWithStr (s p : String) : Bool :=
  p.data.isPrefixOf s.data

/-- `s.toLowerCase()` (ASCII case mapping; the tool names involved are
basic latin). -/
def toLowerStr (s : String) : String :=
  ⟨s.data.map Char.toLower⟩

/-- JS `string.split(sep)` for a single-character separator, computed
structurally over the character sequence (`"".split(sep)` yields `[""]`,
as in JS; the result is never empty). -/
def splitOnCharL (sep : Char) : List Char → List (List Char)
  | [] => [[]]
  | c :: cs =>
    if c = sep then [] :: splitOnCharL sep cs
    else
      match splitOnCharL sep cs with
      | [] => [[c]]
      | h :: t => (c :: h) :: t

/-- `s.split(sep)` on strings. -/
def splitOnStr (sep : Char) (s : String) : List String :=
  (splitOnCharL sep s.data).map String.mk

/-- JS `s.slice(0, n)`. -/
def takeStr (s : String) (n : Nat) : String :=
  ⟨s.data.take n⟩

/-- Map Claude Code tool names to universal categories
(`CLAUDE_TOOL_CATEGORIES` in `claude-code-adapter.ts`). -/
def CLAUDE_TOOL_CATEGORIES : List (String × String) :=
  [("Read", "read"), ("Write", "write"), ("Edit", "edit"),
   ("Bash", "execute"), ("Grep", "search"), ("Glob", "search"),
   ("WebFetch", "network"), ("WebSearch", "network"),
   ("Task", "delegate"), ("TodoWrite", "plan"),
   ("AskUserQuestion", "interact"), ("NotebookEdit", "edit")]

/-- The property keys a plain object literal inherits from
`Object.prototype` in the standard JS runtimes this program targets
(ECMA-262, including the Annex B legacy accessors): all visible to the
`in` operator even though none is an own key of the literal. -/
def OBJECT_PROTOTYPE_KEYS : List String :=
  ["constructor", "hasOwnProperty", "isPrototypeOf", "propertyIsEnumerable",
   "toLocaleString", "toString", "valueOf",
   "__proto__", "__defineGetter__", "__defineSetter__",
   "__lookupGetter__", "__lookupSetter__"]

/-- The `'Read' | 'Write' | 'Edit' | 'NotebookEdit'` branch of
`extractContext`: `path.split('/').pop() || path` guarded by truthiness
of `input.file_path || input.notebook_path`. -/
def fileContext (input : ToolInput) : Option String :=
  let path := jsOrStr input.file_path input.notebook_path
  if strTruthy path then
    let p := path.getD ""
    let last := (splitOnStr '/' p).getLastD ""
    some (if last ≠ "" then last else p)
  else none

/-- The `'Bash'` branch of `extractContext`: first line of the command,
truncated to 30 characters with an appended ellipsis when longer. -/
def bashContext (input : ToolInput) : Option String :=
  if strTruthy input.command then
    let firstLine := (splitOnStr '\n' (input.command.getD "")).headD ""
    some (if firstLine.length > 30 then takeStr firstLine 30 ++ "..." else firstLine)
  else none

/-- The `'WebFetch'` branch of `extractContext`:
`try { return new URL(url).hostname } catch { return url.slice(0, 30) }`. -/
def webFetchContext (parseHostname : String → Option String) (input : ToolInput) : Option String :=
  if strTruthy input.url then
    let u := input.url.getD ""
    some (match parseHostname u with
          | some h => h
          | none => takeStr u 30)
  else none

/-- `extractContext(tool, input)` from `claude-code-adapter.ts`: derive a
human-readable context string from the tool input. -/
def extractContext (parseHostname : String → Option String)
    (tool : String) (input : ToolInput) : Option String :=
  match tool with
  | "Read" | "Write" | "Edit" | "NotebookEdit" => fileContext input
  | "Bash" => bashContext input
  | "Grep" =>
    if strTruthy input.pattern then some ("/" ++ input.pattern.getD "" ++ "/") else none
  | "Glob" =>
    if strTruthy input.pattern then input.pattern else none
  | "WebFetch" => webFetchContext parseHostname input
  | "WebSearch" =>
    if strTruthy input.query then some ("\"" ++ input.query.getD "" ++ "\"") else none
  | "Task" =>
    if strTruthy input.description then input.description else none
  | "TodoWrite" => some "Updating tasks"
  | _ => none

namespace ClaudeCodeAdapter

/-- The nine Claude Code hook event types recognized by
`ClaudeCodeAdapter.canHandle`. -/
def claudeTypes : List String :=
  ["pre_tool_use", "post_tool_use", "stop", "subagent_stop",
   "session_start", "session_end", "user_prompt_submit",
   "notification", "pre_compact"]

/-- `ClaudeCodeAdapter.canHandle`: a truthy `type` among the nine hook
names together with a truthy `sessionId`. -/
def canHandle (raw : Obj) : Bool :=
  match raw.type with
  | none => false
  | some t =>
    if t = "" then false
    else if ¬ strTruthy raw.sessionId then false
    else claudeTypes.contains t

/-- `toolName in CLAUDE_TOOL_CATEGORIES`: the JS `in` operator matches
both the twelve own keys of the literal and the keys inherited from
`Object.prototype`. -/
def inTable (toolName : String) : Bool :=
  (CLAUDE_TOOL_CATEGORIES.lookup toolName).isSome ||
    OBJECT_PROTOTYPE_KEYS.contains toolName

/-- `ClaudeCodeAdapter.categorize`: direct table test via the JS `in`
operator (for an own key the table's category string is returned, for a
key inherited from `Object.prototype` the indexing expression returns
the inherited function member), then the `mcp__*` substring heuristic,
else `'other'`. -/
def categorize (toolName : String) : CategorizeResult :=
  if inTable toolName then
    match CLAUDE_TOOL_CATEGORIES.lookup toolName with
    | some c => .category c
    | none => .inheritedMember toolName
  else
    if startsWithStr toolName "mcp__" then
      let lower := toLowerStr toolName
      if strIncludes lower "browser" || strIncludes lower "playwright" then .category "interact"
      else if strIncludes lower "search" || strIncludes lower "query" then .category "search"
      else if strIncludes lower "fetch" || strIncludes lower "http" || strIncludes lower "api" then .category "network"
      else if strIncludes lower "read" || strIncludes lower "get" then .category "read"
      else if strIncludes lower "write" || strIncludes lower "create" || strIncludes lower "set" then .category "write"
      else if strIncludes lower "edit" || strIncludes lower "update" || strIncludes lower "modify" then .category "edit"
      else if strIncludes lower "run" || strIncludes lower "exec" then .category "execute"
      else .category "other"
    else .category "other"

/-- `ClaudeCodeAdapter.mapStartSource`: `startup`/`resume` pass through,
everything else (including `clear`, `compact` and a missing source)
collapses to `other`. -/
def mapStartSource (source : Option String) : String :=
  match source with
  | some "startup" => "startup"
  | some "resume" => "resume"
  | _ => "other"

/-- The tool name a hook carries: `raw.tool as string` is a string only
when the raw field actually holds one. -/
def toolNameOf (raw : Obj) : Option String :=
  match raw.tool with
  | some (.str s) => some s
  | _ => none

/-- `ClaudeCodeAdapter.normalize`.  `Except.error ()` models the
`TypeError` thrown when a `pre_tool_use`/`post_tool_use` hook carries no
string tool name: `categorize` is then called on `undefined` and
`toolName.startsWith('mcp__')` throws. -/
def normalize (env : Env) (raw : Obj) : Except Unit (Option Obj) :=
  let id := fillStr raw.id env.freshId
  let timestamp := fillNum raw.timestamp env.now
  match raw.type.getD "" with
  | "pre_tool_use" =>
    match toolNameOf raw with
    | none => .error ()
    | some toolName =>
      let toolInput := raw.toolInput.getD {}
      let category := categorize toolName
      if toolName = "Task" then
        let spawnEvent : SubEvent :=
          { id := id, timestamp := timestamp, agentId := raw.sessionId,
            source := "claude-code", cwd := raw.cwd, type := "subagent_spawn",
            parentAgentId := raw.sessionId,
            description := if strTruthy toolInput.description then toolInput.description else none,
            toolUseId := raw.toolUseId }
        .ok (some
          { id := some (id ++ "_tool"), timestamp := some timestamp,
            agentId := raw.sessionId, source := some "claude-code", cwd := raw.cwd,
            type := some "tool_start",
            tool := some (.obj
              { name := some toolName, category := category.categoryStr,
                inheritedCategoryMember := category.inheritedKey, id := raw.toolUseId }),
            input := some toolInput,
            context := extractContext env.parseHostname toolName toolInput,
            metadata := some (.alsoEmit spawnEvent) })
      else
        .ok (some
          { id := some id, timestamp := some timestamp,
            agentId := raw.sessionId, source := some "claude-code", cwd := raw.cwd,
            type := some "tool_start",
            tool := some (.obj
              { name := some toolName, category := category.categoryStr,
                inheritedCategoryMember := category.inheritedKey, id := raw.toolUseId }),
            input := some toolInput,
            context := extractContext env.parseHostname toolName toolInput })
  | "post_tool_use" =>
    match toolNameOf raw with
    | none => .error ()
    | some toolName =>
      let category := categorize toolName
      if toolName = "Task" then
        let endEvent : SubEvent :=
          { id := id, timestamp := timestamp, agentId := raw.sessionId,
            source := "claude-code", cwd := raw.cwd, type := "subagent_end",
            toolUseId := raw.toolUseId }
        .ok (some
          { id := some (id ++ "_tool"), timestamp := some timestamp,
            agentId := raw.sessionId, source := some "claude-code", cwd := raw.cwd,
            type := some "tool_end",
            tool := some (.obj
              { name := some toolName, category := category.categoryStr,
                inheritedCategoryMember := category.inheritedKey, id := raw.toolUseId }),
            success := raw.success, duration := raw.duration,
            metadata := some (.alsoEmit endEvent) })
      else
        .ok (some
          { id := some id, timestamp := some timestamp,
            agentId := raw.sessionId, source := some "claude-code", cwd := raw.cwd,
            type := some "tool_end",
            tool := some (.obj
              { name := some toolName, category := category.categoryStr,
                inheritedCategoryMember := category.inheritedKey, id := raw.toolUseId }),
            success := raw.success, duration := raw.duration,
            output := raw.toolResponse })
  | "stop" =>
    .ok (some
      { id := some id, timestamp := some timestamp, agentId := raw.sessionId,
        source := some "claude-code", cwd := raw.cwd,
        type := some "agent_idle", reason := some "stop", response := raw.response })
  | "subagent_stop" =>
    .ok (some
      { id := some id, timestamp := some timestamp, agentId := raw.sessionId,
        source := some "claude-code", cwd := raw.cwd,
        type := some "agent_idle", reason := some "subagent_stop" })
  | "session_start" =>
    .ok (some
      { id := some id, timestamp := some timestamp, agentId := raw.sessionId,
        source := some "claude-code", cwd := raw.cwd,
        type := some "agent_start", trigger := some (mapStartSource raw.source) })
  | "session_end" =>
    .ok (some
      { id := some id, timestamp := some timestamp, agentId := raw.sessionId,
        source := some "claude-code", cwd := raw.cwd,
        type := some "agent_end", reason := raw.reason })
  | "user_prompt_submit" =>
    .ok (some
      { id := some id, timestamp := some timestamp, agentId := raw.sessionId,
        source := some "claude-code", cwd := raw.cwd,
        type := some "user_input", text := some (fillStr raw.prompt "") })
  | "notification" =>
    .ok (some
      { id := some id, timestamp := some timestamp, agentId := raw.sessionId,
        source := some "claude-code", cwd := raw.cwd,
        type := some "notification", message := some (fillStr raw.message ""),
        level := some "info" })
  | "pre_compact" =>
    .ok (some
      { id := some id, timestamp := some timestamp, agentId := raw.sessionId,
        source := some "claude-code", cwd := raw.cwd,
        type := some "agent_thinking", metadata := some (.trigMeta raw.trigger) })
  | _ => .ok none

end ClaudeCodeAdapter

namespace GenericAdapter

/-- The ten canonical event types (`VALID_EVENT_TYPES` in the generic
adapter). -/
def VALID_EVENT_TYPES : List String :=
  ["tool_start", "tool_end", "agent_idle", "agent_thinking",
   "user_input", "agent_start", "agent_end", "notification",
   "subagent_spawn", "subagent_end"]

/-- The ten canonical tool categories (`VALID_CATEGORIES` in the generic
adapter). -/
def VALID_CATEGORIES : List String :=
  ["read", "write", "edit", "execute", "search",
   "network", "delegate", "plan", "interact", "other"]

/-- `GenericAdapter.canHandle`: string `agentId` and `source`, and a
`type` drawn from the canonical enumeration. -/
def canHandle (raw : Obj) : Bool :=
  raw.agentId.isSome && raw.source.isSome &&
    (match raw.type with
     | some t => VALID_EVENT_TYPES.contains t
     | none => false)

/-- The in-place fixup of `tool.category`:
`const category = (tool.category as string) || 'other'` followed by
`if (!VALID_CATEGORIES.includes(category)) tool.category = 'other'`.
Note the defaulted value is only *written back* when the computed
`category` is invalid, so a missing (or empty) raw category survives
unchanged. -/
def fixCategory (c : Option String) : Option String :=
  let category := if strTruthy c then c.getD "" else "other"
  if VALID_CATEGORIES.contains category then c else some "other"

/-- The in-place fixup of `tool.id`:
`if (!tool.id) tool.id = crypto.randomUUID()`. -/
def fixToolId (i : Option String) (fresh : String) : Option String :=
  if strTruthy i then i else some fresh

/-- `GenericAdapter.normalize`: pass an already-canonical payload
through, filling `id`/`timestamp` when falsy and fixing up the `tool`
object of tool events; tool events without a string `tool.name` are
rejected with `null`.  The final `{ ...raw, ...event }` spread keeps
every other raw field. -/
def normalize (env : Env) (raw : Obj) : Option Obj :=
  match raw.type with
  | none => none
  | some t =>
    if ¬ VALID_EVENT_TYPES.contains t then none
    else
      let newId := fillStr raw.id env.freshId
      let newTimestamp := fillNum raw.timestamp env.now
      if t = "tool_start" ∨ t = "tool_end" then
        match raw.tool with
        | some (.obj tl) =>
          match tl.name with
          | some _ =>
            some { raw with
                   id := some newId, timestamp := some newTimestamp,
                   tool := some (.obj { tl with
                     category := fixCategory tl.category,
                     id := fixToolId tl.id env.freshToolId }) }
          | none => none
        | _ => none
      else
        some { raw with id := some newId, timestamp := some newTimestamp }

end GenericAdapter

/-- The adapter contract (`EventAdapter` in `base-adapter.ts`),
instantiated at the model types.  `normalize` returning `Except.error`
models a thrown exception; `Except.ok none` models a deliberate `null`. -/
structure EventAdapter where
  name : String
  canHandle : Obj → Bool
  normalize : Obj → Except Unit (Option Obj)

/-- The `ClaudeCodeAdapter` instance registered in `index.ts`. -/
def claudeCodeAdapter (env : Env) : EventAdapter :=
  { name := "claude-code",
    canHandle := ClaudeCodeAdapter.canHandle,
    normalize := ClaudeCodeAdapter.normalize env }

/-- The `GenericAdapter` instance registered in `index.ts` (it never
throws, so its result is always `ok`). -/
def genericAdapter (env : Env) : EventAdapter :=
  { name := "generic",
    canHandle := GenericAdapter.canHandle,
    normalize := fun raw => .ok (GenericAdapter.normalize env raw) }

/-- The built-in registry order from `index.ts`: the Claude Code adapter
first, the generic pass-through adapter last. -/
def builtinAdapters (env : Env) : List EventAdapter :=
  [claudeCodeAdapter env, genericAdapter env]

/-- The loop body of `normalizeEvent(raw)`: iterate the registry in
order and use the first adapter whose `canHandle` returns true; `null`
when none matches. -/
def normalizeList (adapters : List EventAdapter) (raw : Obj) : Except Unit (Option Obj) :=
  match adapters with
  | [] => .ok none
  | a :: rest => if a.canHandle raw then a.normalize raw else normalizeList rest raw

/-- `normalizeEvent(raw)` over the built-in registry. -/
def normalizeEvent (env : Env) (raw : Obj) : Except Unit (Option Obj) :=
  normalizeList (builtinAdapters env) raw

/-- `registerAdapter(adapter)`: `adapters.unshift(adapter)` — the new
adapter is consulted before every previously registered one. -/
def registerAdapter (adapter : EventAdapter) (adapters : List EventAdapter) : List EventAdapter :=
  adapter :: adapters

/-- The `mcp__*` substring heuristic of `ClaudeCodeAdapter.categorize`:
true exactly when the name starts with `mcp__` and at least one of the
category-inferring substrings occurs in its lower-cased form. -/
def mcpHeuristicMatch (toolName : String) : Bool :=
  startsWithStr toolName "mcp__" &&
    (let lower := toLowerStr toolName
     strIncludes lower "browser" || strIncludes lower "playwright" ||
     strIncludes lower "search" || strIncludes lower "query" ||
     strIncludes lower "fetch" || strIncludes lower "http" ||
     strIncludes lower "api" || strIncludes lower "read" ||
     strIncludes lower "get" || strIncludes lower "write" ||
     strIncludes lower "create" || strIncludes lower "set" ||
     strIncludes lower "edit" || strIncludes lower "update" ||
     strIncludes lower "modify" || strIncludes lower "run" ||
     strIncludes lower "exec")

/-- The generic adapter's in-place fixup of the `tool` object of a tool
event: category validated, invocation id synthesized when falsy;
non-object tool fields are left alone (they are rejected elsewhere). -/
def patchTool (env : Env) : Option ToolField → Option ToolField
  | some (.obj tl) =>
    some (.obj { tl with
      category := GenericAdapter.fixCategory tl.category,
      id := GenericAdapter.fixToolId tl.id env.freshToolId })
  | o => o

/-- Project the `context` field out of a `normalize` result. -/
def contextOfResult (r : Except Unit (Option Obj)) : Option String :=
  match r with
  | .ok (some e) => e.context
  | _ => none

/-- A fixed ambient environment for concrete evaluations. -/
def env0 : Env :=
  { parseHostname := fun _ => none, freshId := "uuid-1", freshToolId := "uuid-2", now := 1000 }

/-- A second, different ambient environment (used to show results do not
depend on the first call's generated values). -/
def env1 : Env :=
  { parseHostname := fun _ => some "host", freshId := "uuid-3", freshToolId := "uuid-4", now := 2000 }

/-- A Claude Code `stop` hook payload. -/
def stopRaw : Obj := { type := some "stop", sessionId := some "s1" }

/-- The spec's Task scenario payload. -/
def taskRaw : Obj :=
  { type := some "pre_tool_use", sessionId := some "s1",
    tool := some (.str "Task"), toolInput := some { description := some "x" },
    toolUseId := some "t2" }

/-- The spec's Read scenario payload. -/
def readRaw : Obj :=
  { type := some "pre_tool_use", sessionId := some "s1",
    tool := some (.str "Read"), toolInput := some { file_path := some "/a/b.txt" },
    toolUseId := some "t1" }

/-- A `pre_tool_use` hook for the Glob tool. -/
def globRaw : Obj :=
  { type := some "pre_tool_use", sessionId := some "s1",
    tool := some (.str "Glob"), toolInput := some { pattern := some "src" },
    toolUseId := some "t9" }

/-- A `pre_tool_use` hook with no `tool` field at all. -/
def noToolRaw : Obj := { type := some "pre_tool_use", sessionId := some "s1" }

/-- A fully-identified canonical `tool_start` payload whose tool object
carries no `category`. -/
def missingCatRaw : Obj :=
  { id := some "e1", timestamp := some 5, type := some "tool_start",
    agentId := some "a1", source := some "ext",
    tool := some (.obj { name := some "T", id := some "t1" }) }

/-- A canonical `agent_idle` payload missing `id` and `timestamp`. -/
def idleRaw : Obj :=
  { type := some "agent_idle", agentId := some "a1", source := some "ext" }

/-- A fully-populated canonical `tool_start` payload. -/
def fullToolRaw : Obj :=
  { id := some "e1", timestamp := some 5, type := some "tool_start",
    agentId := some "a1", source := some "ext",
    tool := some (.obj { name := some "T", category := some "read", id := some "t1" }) }

/-- A payload whose `type` is neither canonical nor a Claude Code hook. -/
def bogusRaw : Obj := { type := some "bogus" }

/-- A user-supplied adapter that claims every payload. -/
def customAdapter : EventAdapter :=
  { name := "custom", canHandle := fun _ => true, normalize := fun _ => .ok none }

/-! ## Helper lemmas -/

theorem fillStr_truthy {s : String} (hs : s ≠ "") (f : String) : fillStr (some s) f = s := by
  simp [fillStr, hs]

theorem fillNum_truthy {n : Int} (hn : n ≠ 0) (f : Int) : fillNum (some n) f = n := by
  simp [fillNum, hn]

theorem normalizeList_skip {a : EventAdapter} {raw : Obj} (rest : List EventAdapter)
    (h : a.canHandle raw = false) :
    normalizeList (a :: rest) raw = normalizeList rest raw := by
  simp [normalizeList, h]

theorem normalizeList_hit {a : EventAdapter} {raw : Obj} (rest : List EventAdapter)
    (h : a.canHandle raw = true) :
    normalizeList (a :: rest) raw = a.normalize raw := by
  simp [normalizeList, h]

/-! ## Claims -/

/-- C3: `normalizeEvent` iterates the registry's adapters in order and
returns `adapter.normalize(raw)` for the first adapter whose
`canHandle(raw)` is true (every earlier adapter declined); whenever no
registered adapter's `canHandle` returns true it returns `null`
(`Except.ok none`) without throwing. -/
theorem C3_first_match_dispatch (pre post others : List EventAdapter) (a : EventAdapter)
    (raw raw2 : Obj)
    (h1 : ∀ b ∈ pre, b.canHandle raw = false)
    (h2 : a.canHandle raw = true)
    (h3 : ∀ b ∈ others, b.canHandle raw2 = false) :
    normalizeList (pre ++ a :: post) raw = a.normalize raw ∧
    normalizeList others raw2 = .ok none := by
  constructor
  · induction pre with
    | nil => exact normalizeList_hit post h2
    | cons b rest ih =>
      rw [List.cons_append, normalizeList_skip _ (h1 b (List.mem_cons_self b rest))]
      exact ih fun c hc => h1 c (List.mem_cons_of_mem b hc)
  · induction others with
    | nil => rfl
    | cons b rest ih =>
      rw [normalizeList_skip _ (h3 b (List.mem_cons_self b rest))]
      exact ih fun c hc => h3 c (List.mem_cons_of_mem b hc)

/-- Witness for C3, at the built-in registry: a Claude Code `stop` hook
is dispatched to the Claude Code adapter (no earlier adapter exists),
and a registry holding only the generic adapter — which declines the
hook — yields `null`. -/
theorem C3_first_match_dispatch_witness :
    normalizeList ([] ++ claudeCodeAdapter env0 :: [genericAdapter env0]) stopRaw
      = (claudeCodeAdapter env0).normalize stopRaw ∧
    normalizeList [genericAdapter env0] stopRaw = .ok none :=
  C3_first_match_dispatch [] [genericAdapter env0] [genericAdapter env0]
    (claudeCodeAdapter env0) stopRaw stopRaw
    (by intro b hb; cases hb)
    (by rfl)
    (by
      intro b hb
      rw [List.mem_singleton] at hb
      subst hb
      rfl)

/-- C4: after `registerAdapter(a)` the adapter `a` is consulted before
every previously registered adapter: whenever `a.canHandle raw` is true,
dispatch returns `a.normalize raw` regardless of what the previously
registered adapters would say. -/
theorem C4_registered_adapter_wins (a : EventAdapter) (adapters : List EventAdapter)
    (raw : Obj) (h : a.canHandle raw = true) :
    normalizeList (registerAdapter a adapters) raw = a.normalize raw := by
  rw [registerAdapter]
  exact normalizeList_hit adapters h

/-- Witness for C4: a custom catch-all adapter registered on top of the
built-in registry wins on a Claude Code `stop` hook even though the
built-in Claude Code adapter's `canHandle` also returns true for it. -/
theorem C4_registered_adapter_wins_witness :
    (claudeCodeAdapter env0).canHandle stopRaw = true ∧
    normalizeList (registerAdapter customAdapter (builtinAdapters env0)) stopRaw
      = customAdapter.normalize stopRaw :=
  ⟨rfl, C4_registered_adapter_wins customAdapter (builtinAdapters env0) stopRaw rfl⟩

/-- C6: counterexample to the claim as stated.  `"toString"` is neither
one of the twelve table names nor matched by the `mcp__*` heuristic, yet
`categorize` does not return `'other'`: the JS `in` test matches the key
inherited from `Object.prototype` and the indexing expression returns
the inherited function member. -/
theorem C6_counterexample_prototype_key :
    CLAUDE_TOOL_CATEGORIES.lookup "toString" = none ∧
    mcpHeuristicMatch "toString" = false ∧
    ClaudeCodeAdapter.categorize "toString" = .inheritedMember "toString" ∧
    ClaudeCodeAdapter.categorize "toString" ≠ .category "other" :=
  ⟨rfl, by decide, rfl, by decide⟩

/-- C6 (amended): each of the twelve tool names in the direct table maps
to that table's fixed category, and every name that is neither an own
key of the table, nor an `Object.prototype` key visible to the JS `in`
operator (for which the inherited member is returned instead of a
category), nor matched by the `mcp__*` substring heuristic, falls
through to `other`. -/
theorem C6_categorize_table_and_fallthrough (n : String)
    (h1 : CLAUDE_TOOL_CATEGORIES.lookup n = none)
    (h1b : OBJECT_PROTOTYPE_KEYS.contains n = false)
    (h2 : mcpHeuristicMatch n = false) :
    (ClaudeCodeAdapter.categorize "Read" = .category "read" ∧
     ClaudeCodeAdapter.categorize "Write" = .category "write" ∧
     ClaudeCodeAdapter.categorize "Edit" = .category "edit" ∧
     ClaudeCodeAdapter.categorize "Bash" = .category "execute" ∧
     ClaudeCodeAdapter.categorize "Grep" = .category "search" ∧
     ClaudeCodeAdapter.categorize "Glob" = .category "search" ∧
     ClaudeCodeAdapter.categorize "WebFetch" = .category "network" ∧
     ClaudeCodeAdapter.categorize "WebSearch" = .category "network" ∧
     ClaudeCodeAdapter.categorize "Task" = .category "delegate" ∧
     ClaudeCodeAdapter.categorize "TodoWrite" = .category "plan" ∧
     ClaudeCodeAdapter.categorize "AskUserQuestion" = .category "interact" ∧
     ClaudeCodeAdapter.categorize "NotebookEdit" = .category "edit") ∧
    ClaudeCodeAdapter.categorize n = .category "other" := by
  refine ⟨⟨rfl, rfl, rfl, rfl, rfl, rfl, rfl, rfl, rfl, rfl, rfl, rfl⟩, ?_⟩
  have hin : ClaudeCodeAdapter.inTable n = false := by
    unfold ClaudeCodeAdapter.inTable
    rw [h1, h1b]
    rfl
  cases hs : startsWithStr n "mcp__" with
  | false => simp [ClaudeCodeAdapter.categorize, hin, hs]
  | true =>
    simp only [mcpHeuristicMatch, hs, Bool.true_and, Bool.or_eq_false_iff] at h2
    simp [ClaudeCodeAdapter.categorize, hin, hs, h2]

/-- Witness for C6 at the spec's own fixture: the dynamically-named tool
`mcp__custom__foo` has no table entry, is no inherited prototype key,
has no categorizable substring, and resolves to `other`. -/
theorem C6_categorize_table_and_fallthrough_witness :
    CLAUDE_TOOL_CATEGORIES.lookup "mcp__custom__foo" = none ∧
    OBJECT_PROTOTYPE_KEYS.contains "mcp__custom__foo" = false ∧
    mcpHeuristicMatch "mcp__custom__foo" = false ∧
    ClaudeCodeAdapter.categorize "mcp__custom__foo" = .category "other" :=
  ⟨rfl, rfl, by decide,
   (C6_categorize_table_and_fallthrough "mcp__custom__foo" rfl rfl (by decide)).2⟩

/-- C7: a raw payload whose `type` is neither one of the ten canonical
event types nor one of the nine Claude Code hook names is rejected:
`normalizeEvent` returns `null` without throwing. -/
theorem C7_unknown_type_is_rejected (env : Env) (raw : Obj)
    (h : ∀ t, raw.type = some t →
      GenericAdapter.VALID_EVENT_TYPES.contains t = false ∧
      ClaudeCodeAdapter.claudeTypes.contains t = false) :
    normalizeEvent env raw = .ok none := by
  have hc : ClaudeCodeAdapter.canHandle raw = false := by
    unfold ClaudeCodeAdapter.canHandle
    cases htype : raw.type with
    | none => rfl
    | some t =>
      dsimp only
      by_cases he : t = ""
      · rw [if_pos he]
      · rw [if_neg he]
        by_cases hsess : strTruthy raw.sessionId = true
        · rw [if_neg (not_not_intro hsess)]
          exact (h t htype).2
        · rw [if_pos hsess]
  have hg : GenericAdapter.canHandle raw = false := by
    unfold GenericAdapter.canHandle
    cases htype : raw.type with
    | none => simp
    | some t =>
      dsimp only
      rw [(h t htype).1, Bool.and_false]
  rw [normalizeEvent, builtinAdapters,
      normalizeList_skip _ (show (claudeCodeAdapter env).canHandle raw = false from hc),
      normalizeList_skip _ (show (genericAdapter env).canHandle raw = false from hg)]
  rfl

/-- Witness for C7: `type: "bogus"` is rejected by the whole registry. -/
theorem C7_unknown_type_is_rejected_witness :
    normalizeEvent env0 bogusRaw = .ok none :=
  C7_unknown_type_is_rejected env0 bogusRaw (by
    intro t ht
    rw [show bogusRaw.type = some "bogus" from rfl] at ht
    injection ht with h
    subst h
    exact ⟨rfl, rfl⟩)

/-- C1: for every raw `pre_tool_use` payload with a `sessionId` and tool
name `Task`, the Claude Code adapter's `normalize` returns a
`tool_start` event whose tool category is `delegate` and whose metadata
bag holds, under the `_alsoEmit` side-channel key, a companion
`subagent_spawn` event whose `parentAgentId` is the raw `sessionId` and
whose `toolUseId` is the raw `toolUseId`. -/
theorem C1_task_emits_spawn_companion (env : Env) (raw : Obj) (s : String)
    (h1 : raw.type = some "pre_tool_use")
    (h2 : raw.sessionId = some s)
    (h3 : raw.tool = some (.str "Task")) :
    ∃ ev sub,
      ClaudeCodeAdapter.normalize env raw = .ok (some ev) ∧
      ev.type = some "tool_start" ∧
      ev.tool = some (.obj { name := some "Task", category := some "delegate", id := raw.toolUseId }) ∧
      ev.metadata = some (.alsoEmit sub) ∧
      sub.type = "subagent_spawn" ∧
      sub.parentAgentId = some s ∧
      sub.toolUseId = raw.toolUseId := by
  simp only [ClaudeCodeAdapter.normalize, ClaudeCodeAdapter.toolNameOf, h1, h2, h3,
    Option.getD_some]
  exact ⟨_, _, rfl, rfl, rfl, rfl, rfl, rfl, rfl⟩

/-- Witness for C1 at the spec's Task scenario payload. -/
theorem C1_task_emits_spawn_companion_witness :
    ∃ ev sub,
      ClaudeCodeAdapter.normalize env0 taskRaw = .ok (some ev) ∧
      ev.type = some "tool_start" ∧
      ev.tool = some (.obj { name := some "Task", category := some "delegate", id := some "t2" }) ∧
      ev.metadata = some (.alsoEmit sub) ∧
      sub.type = "subagent_spawn" ∧
      sub.parentAgentId = some "s1" ∧
      sub.toolUseId = some "t2" :=
  C1_task_emits_spawn_companion env0 taskRaw "s1" rfl rfl rfl

/-- C10: for both `pre_tool_use` and `post_tool_use` hooks of the `Task`
tool, the primary event's id is the raw (or freshly generated) id with
`"_tool"` appended while the embedded companion event keeps the
unsuffixed id, so the two events always have distinct ids. -/
theorem C10_task_event_ids_distinct (env : Env) (raw : Obj)
    (h1 : raw.type = some "pre_tool_use" ∨ raw.type = some "post_tool_use")
    (h2 : raw.tool = some (.str "Task")) :
    ∃ ev sub,
      ClaudeCodeAdapter.normalize env raw = .ok (some ev) ∧
      ev.id = some (fillStr raw.id env.freshId ++ "_tool") ∧
      ev.metadata = some (.alsoEmit sub) ∧
      sub.id = fillStr raw.id env.freshId ∧
      ev.id ≠ some sub.id := by
  have hne : fillStr raw.id env.freshId ++ "_tool" ≠ fillStr raw.id env.freshId := by
    intro hcontra
    have hlen := congrArg String.length hcontra
    rw [String.length_append] at hlen
    have h5 : ("_tool" : String).length = 5 := rfl
    omega
  rcases h1 with h1 | h1 <;>
    (simp only [ClaudeCodeAdapter.normalize, ClaudeCodeAdapter.toolNameOf, h1, h2,
       Option.getD_some];
     exact ⟨_, _, rfl, rfl, rfl, rfl, by simpa using hne⟩)

/-- Witness for C10 at the Task scenario payload (no raw id, so the
generated one is used). -/
theorem C10_task_event_ids_distinct_witness :
    ∃ ev sub,
      ClaudeCodeAdapter.normalize env0 taskRaw = .ok (some ev) ∧
      ev.id = some "uuid-1_tool" ∧
      ev.metadata = some (.alsoEmit sub) ∧
      sub.id = "uuid-1" ∧
      ev.id ≠ some sub.id :=
  C10_task_event_ids_distinct env0 taskRaw (Or.inl rfl) rfl

/-- C9: evaluation at the failing input.  `canHandle` accepts a
`pre_tool_use` payload with a `sessionId` but no `tool` field, yet
`normalize` does not return an event: `raw.tool as string` is
`undefined`, and `categorize(undefined)` throws a `TypeError` at
`toolName.startsWith('mcp__')` (modelled as `Except.error ()`) instead
of producing the non-null canonical event the claim (and the spec's
never-throw propagation policy) requires. -/
theorem C9_missing_tool_throws :
    ClaudeCodeAdapter.canHandle noToolRaw = true ∧
    ClaudeCodeAdapter.normalize env0 noToolRaw = .error () :=
  ⟨rfl, rfl⟩

/-- C5: counterexample to the claim as stated.  Glob is a search tool
(`categorize 'Glob' = 'search'`), but its context is the raw pattern,
not the pattern wrapped in slashes. -/
theorem C5_counterexample_glob_not_wrapped :
    ClaudeCodeAdapter.categorize "Glob" = .category "search" ∧
    contextOfResult (ClaudeCodeAdapter.normalize env0 globRaw) = some "src" ∧
    some "src" ≠ some "/src/" :=
  ⟨rfl, rfl, by decide⟩

/-- C5 (amended): per-tool context of the `tool_start` event produced
from a handled `pre_tool_use` hook — file tools use the path's base
name (`fileContext`), the shell tool the first command line truncated
at 30 characters with an ellipsis (`bashContext`), Grep the pattern
wrapped in slashes, Glob the pattern verbatim, the network fetch tool
the parsed hostname with a truncated-URL fallback (`webFetchContext`),
and the planning tool a fixed label; each helper yields `none` (context
omitted) when no value is extractable. -/
theorem C5_context_per_tool (env : Env) (raw : Obj) (nm : String)
    (h0 : strTruthy raw.sessionId = true)
    (h1 : raw.type = some "pre_tool_use")
    (h2 : raw.tool = some (.str nm)) :
    ∃ ev, ClaudeCodeAdapter.normalize env raw = .ok (some ev) ∧
      ((nm = "Read" ∨ nm = "Write" ∨ nm = "Edit" ∨ nm = "NotebookEdit" →
        ev.context = fileContext (raw.toolInput.getD {})) ∧
       (nm = "Bash" → ev.context = bashContext (raw.toolInput.getD {})) ∧
       (nm = "Grep" → ev.context =
         (if strTruthy (raw.toolInput.getD {}).pattern
          then some ("/" ++ (raw.toolInput.getD {}).pattern.getD "" ++ "/") else none)) ∧
       (nm = "Glob" → ev.context =
         (if strTruthy (raw.toolInput.getD {}).pattern
          then (raw.toolInput.getD {}).pattern else none)) ∧
       (nm = "WebFetch" → ev.context = webFetchContext env.parseHostname (raw.toolInput.getD {})) ∧
       (nm = "TodoWrite" → ev.context = some "Updating tasks")) := by
  by_cases htask : nm = "Task"
  · subst htask
    simp only [ClaudeCodeAdapter.normalize, ClaudeCodeAdapter.toolNameOf, h1, h2,
      Option.getD_some]
    refine ⟨_, rfl, ?_, ?_, ?_, ?_, ?_, ?_⟩
    · intro hcon
      rcases hcon with h | h | h | h <;> exact absurd h (by decide)
    all_goals (intro h; exact absurd h (by decide))
  · simp only [ClaudeCodeAdapter.normalize, ClaudeCodeAdapter.toolNameOf, h1, h2,
      Option.getD_some, htask]
    refine ⟨_, rfl, ?_, ?_, ?_, ?_, ?_, ?_⟩
    · rintro (rfl | rfl | rfl | rfl) <;> rfl
    all_goals (rintro rfl; rfl)

/-- Witness for C5 at the spec's Read scenario: the context is the
file's base name `b.txt`. -/
theorem C5_context_per_tool_witness :
    (∃ ev, ClaudeCodeAdapter.normalize env0 readRaw = .ok (some ev) ∧
      (("Read" = "Read" ∨ "Read" = "Write" ∨ "Read" = "Edit" ∨ "Read" = "NotebookEdit" →
        ev.context = fileContext (readRaw.toolInput.getD {})) ∧
       ("Read" = "Bash" → ev.context = bashContext (readRaw.toolInput.getD {})) ∧
       ("Read" = "Grep" → ev.context =
         (if strTruthy (readRaw.toolInput.getD {}).pattern
          then some ("/" ++ (readRaw.toolInput.getD {}).pattern.getD "" ++ "/") else none)) ∧
       ("Read" = "Glob" → ev.context =
         (if strTruthy (readRaw.toolInput.getD {}).pattern
          then (readRaw.toolInput.getD {}).pattern else none)) ∧
       ("Read" = "WebFetch" → ev.context = webFetchContext env0.parseHostname (readRaw.toolInput.getD {})) ∧
       ("Read" = "TodoWrite" → ev.context = some "Updating tasks"))) ∧
    contextOfResult (ClaudeCodeAdapter.normalize env0 readRaw) = some "b.txt" :=
  ⟨C5_context_per_tool env0 readRaw "Read" rfl rfl rfl, rfl⟩

/-! ## Further helper lemmas (generic-adapter path) -/

theorem strTruthy_iff {o : Option String} : strTruthy o = true ↔ ∃ s, o = some s ∧ s ≠ "" := by
  cases o <;> simp [strTruthy]

theorem numTruthy_iff {o : Option Int} : numTruthy o = true ↔ ∃ n, o = some n ∧ n ≠ 0 := by
  cases o <;> simp [numTruthy]

theorem fixToolId_truthy {i : Option String} (h : strTruthy i = true) (f : String) :
    GenericAdapter.fixToolId i f = i := by
  unfold GenericAdapter.fixToolId
  rw [if_pos h]

theorem fixCategory_of_ne {s : String} (hs : s ≠ "") :
    GenericAdapter.fixCategory (some s) =
      if GenericAdapter.VALID_CATEGORIES.contains s then some s else some "other" := by
  simp only [GenericAdapter.fixCategory, strTruthy, Option.getD_some]
  simp [hs]

theorem fixCategory_idem (c : Option String) :
    GenericAdapter.fixCategory (GenericAdapter.fixCategory c) = GenericAdapter.fixCategory c := by
  cases c with
  | none => rfl
  | some s =>
    by_cases hs : s = ""
    · subst hs; rfl
    · by_cases hv : GenericAdapter.VALID_CATEGORIES.contains s = true
      · rw [fixCategory_of_ne hs, if_pos hv, fixCategory_of_ne hs, if_pos hv]
      · rw [fixCategory_of_ne hs, if_neg hv]; rfl

theorem claude_declines (raw : Obj) (t : String) (h3 : raw.type = some t)
    (hc : ClaudeCodeAdapter.claudeTypes.contains t = false) :
    ClaudeCodeAdapter.canHandle raw = false := by
  unfold ClaudeCodeAdapter.canHandle
  rw [h3]
  dsimp only
  by_cases he : t = ""
  · rw [if_pos he]
  · rw [if_neg he]
    by_cases hs : strTruthy raw.sessionId = true
    · rw [if_neg (not_not_intro hs)]
      exact hc
    · rw [if_pos hs]

theorem claude_declines_no_session (raw : Obj) (hs : strTruthy raw.sessionId = false) :
    ClaudeCodeAdapter.canHandle raw = false := by
  unfold ClaudeCodeAdapter.canHandle
  cases htype : raw.type with
  | none => rfl
  | some t =>
    dsimp only
    by_cases he : t = ""
    · rw [if_pos he]
    · rw [if_neg he, if_pos (by simp [hs])]

theorem generic_accepts (raw : Obj) (t : String) (h3 : raw.type = some t)
    (h1 : raw.agentId.isSome = true) (h2 : raw.source.isSome = true)
    (hvalid : GenericAdapter.VALID_EVENT_TYPES.contains t = true) :
    GenericAdapter.canHandle raw = true := by
  unfold GenericAdapter.canHandle
  rw [h3]
  dsimp only
  rw [h1, h2, hvalid]
  rfl

theorem normalizeEvent_via_claude (env : Env) (raw : Obj)
    (hc : ClaudeCodeAdapter.canHandle raw = true) :
    normalizeEvent env raw = ClaudeCodeAdapter.normalize env raw := by
  rw [normalizeEvent, builtinAdapters]
  exact normalizeList_hit _ hc

theorem normalizeEvent_via_generic (env : Env) (raw : Obj)
    (hc : ClaudeCodeAdapter.canHandle raw = false)
    (hg : GenericAdapter.canHandle raw = true) :
    normalizeEvent env raw = .ok (GenericAdapter.normalize env raw) := by
  rw [normalizeEvent, builtinAdapters,
      normalizeList_skip _ (show (claudeCodeAdapter env).canHandle raw = false from hc),
      normalizeList_hit _ (show (genericAdapter env).canHandle raw = true from hg)]
  rfl

/-- Closed form of `GenericAdapter.normalize` on a recognized type: the
input comes back unchanged except that `id` and `timestamp` are filled
when falsy and the `tool` object of a tool event gets its category
validated and its id synthesized. -/
theorem genericNormalize_eq (env : Env) (raw : Obj) (t : String)
    (h3 : raw.type = some t)
    (hvalid : GenericAdapter.VALID_EVENT_TYPES.contains t = true)
    (h5 : t = "tool_start" ∨ t = "tool_end" →
          ∃ tl, raw.tool = some (.obj tl) ∧ tl.name.isSome = true) :
    GenericAdapter.normalize env raw =
      some { raw with
        id := some (fillStr raw.id env.freshId),
        timestamp := some (fillNum raw.timestamp env.now),
        tool := if t = "tool_start" ∨ t = "tool_end" then patchTool env raw.tool else raw.tool } := by
  unfold GenericAdapter.normalize
  rw [h3]
  dsimp only
  rw [if_neg (not_not_intro hvalid)]
  by_cases htt : t = "tool_start" ∨ t = "tool_end"
  · rw [if_pos htt, if_pos htt]
    obtain ⟨tl, htool, hname⟩ := h5 htt
    obtain ⟨v, hv⟩ := Option.isSome_iff_exists.mp hname
    rw [htool]
    dsimp only
    rw [hv]
    dsimp only
    simp only [patchTool]
    rw [hv]
  · rw [if_neg htt, if_neg htt]

/-- A fully-populated canonical payload not claimed by the Claude Code
adapter is a fixed point of `normalizeEvent`. -/
theorem generic_output_fixpoint (env : Env) (y : Obj) (t : String)
    (h1 : y.agentId.isSome = true) (h2 : y.source.isSome = true)
    (h3 : y.type = some t)
    (hvalid : GenericAdapter.VALID_EVENT_TYPES.contains t = true)
    (hcl : ClaudeCodeAdapter.canHandle y = false)
    (hid : strTruthy y.id = true)
    (hts : numTruthy y.timestamp = true)
    (h5 : t = "tool_start" ∨ t = "tool_end" →
          ∃ tl, y.tool = some (.obj tl) ∧ tl.name.isSome = true)
    (hpatch : t = "tool_start" ∨ t = "tool_end" → patchTool env y.tool = y.tool) :
    normalizeEvent env y = .ok (some y) := by
  obtain ⟨s, hsid, hs⟩ := strTruthy_iff.mp hid
  obtain ⟨n, hsn, hn⟩ := numTruthy_iff.mp hts
  rw [normalizeEvent_via_generic env y hcl (generic_accepts y t h3 h1 h2 hvalid),
      genericNormalize_eq env y t h3 hvalid h5, hsid, hsn, fillStr_truthy hs, fillNum_truthy hn]
  by_cases htt : t = "tool_start" ∨ t = "tool_end"
  · rw [if_pos htt, hpatch htt, ← hsid, ← hsn]
  · rw [if_neg htt, ← hsid, ← hsn]

/-- C2: counterexample to the claim as stated.  A valid canonical
`tool_start` payload whose tool object has no `category` passes through
`normalizeEvent` completely unchanged: the missing category is *not*
defaulted to `other` (the computed default `'other'` is itself a valid
category, so the write-back branch never fires). -/
theorem C2_counterexample_missing_category_kept :
    normalizeEvent env0 missingCatRaw = .ok (some missingCatRaw) ∧
    missingCatRaw.tool = some (.obj { name := some "T", category := none, id := some "t1" }) :=
  ⟨rfl, rfl⟩

/-- C2 (amended): for every raw payload shaped as a valid canonical
event (string `agentId`/`source`, recognized `type`, and a tool object
with a string name for tool events) that the Claude Code adapter does
not claim first (`type` `notification` together with a truthy
`sessionId`), `normalizeEvent` returns the input unchanged except that
a missing-or-empty `id` and a missing-or-zero `timestamp` are filled
in, a missing-or-empty `tool.id` is synthesized, and a non-empty
*invalid* `tool.category` is replaced by `other` (a missing or empty
category survives unchanged). -/
theorem C2_generic_passthrough (env : Env) (raw : Obj) (t : String)
    (h1 : raw.agentId.isSome = true)
    (h2 : raw.source.isSome = true)
    (h3 : raw.type = some t)
    (h4 : t = "tool_start" ∨ t = "tool_end" ∨ t = "agent_idle" ∨ t = "agent_thinking" ∨
          t = "user_input" ∨ t = "agent_start" ∨ t = "agent_end" ∨ t = "notification" ∨
          t = "subagent_spawn" ∨ t = "subagent_end")
    (h5 : t = "tool_start" ∨ t = "tool_end" →
          ∃ tl, raw.tool = some (.obj tl) ∧ tl.name.isSome = true)
    (h6 : ¬ (t = "notification" ∧ strTruthy raw.sessionId = true)) :
    normalizeEvent env raw =
      .ok (some { raw with
        id := some (fillStr raw.id env.freshId),
        timestamp := some (fillNum raw.timestamp env.now),
        tool := if t = "tool_start" ∨ t = "tool_end" then patchTool env raw.tool else raw.tool }) := by
  have hvalid : GenericAdapter.VALID_EVENT_TYPES.contains t = true := by
    rcases h4 with rfl | rfl | rfl | rfl | rfl | rfl | rfl | rfl | rfl | rfl <;> rfl
  have hclaude : ClaudeCodeAdapter.canHandle raw = false := by
    by_cases hn : t = "notification"
    · subst hn
      refine claude_declines_no_session raw ?_
      rcases Bool.eq_false_or_eq_true (strTruthy raw.sessionId) with h | h
      · exact absurd ⟨rfl, h⟩ h6
      · exact h
    · refine claude_declines raw t h3 ?_
      rcases h4 with rfl | rfl | rfl | rfl | rfl | rfl | rfl | rfl | rfl | rfl <;>
        first | rfl | exact absurd rfl hn
  rw [normalizeEvent_via_generic env raw hclaude (generic_accepts raw t h3 h1 h2 hvalid),
      genericNormalize_eq env raw t h3 hvalid h5]

/-- Witness for C2 at a canonical `agent_idle` payload missing `id` and
`timestamp`: both are filled in and everything else is untouched. -/
theorem C2_generic_passthrough_witness :
    normalizeEvent env0 idleRaw =
      .ok (some { idleRaw with id := some "uuid-1", timestamp := some 1000 }) :=
  C2_generic_passthrough env0 idleRaw "agent_idle" rfl rfl rfl
    (Or.inr (Or.inr (Or.inl rfl)))
    (fun h => absurd h (by decide))
    (by decide)

/-- C8: normalization is idempotent on fully-populated canonical input:
for every canonical-shaped payload already carrying a truthy `id` and a
non-zero `timestamp` (and, for tool events, a tool object with a string
name and truthy category and id), a first `normalizeEvent` succeeds and
its result is a fixed point of `normalizeEvent`, whatever fresh
ids/clock the second call would draw. -/
theorem C8_normalize_idempotent (envA envB : Env) (raw : Obj) (t : String)
    (h1 : raw.agentId.isSome = true)
    (h2 : raw.source.isSome = true)
    (h3 : raw.type = some t)
    (h4 : t = "tool_start" ∨ t = "tool_end" ∨ t = "agent_idle" ∨ t = "agent_thinking" ∨
          t = "user_input" ∨ t = "agent_start" ∨ t = "agent_end" ∨ t = "notification" ∨
          t = "subagent_spawn" ∨ t = "subagent_end")
    (hid : strTruthy raw.id = true)
    (hts : numTruthy raw.timestamp = true)
    (h5 : t = "tool_start" ∨ t = "tool_end" →
          ∃ tl, raw.tool = some (.obj tl) ∧ tl.name.isSome = true ∧
            strTruthy tl.category = true ∧ strTruthy tl.id = true) :
    ∃ y, normalizeEvent envA raw = .ok (some y) ∧ normalizeEvent envB y = .ok (some y) := by
  obtain ⟨si, hsid, hsi⟩ := strTruthy_iff.mp hid
  obtain ⟨n, hsn, hn⟩ := numTruthy_iff.mp hts
  have hvalid : GenericAdapter.VALID_EVENT_TYPES.contains t = true := by
    rcases h4 with rfl | rfl | rfl | rfl | rfl | rfl | rfl | rfl | rfl | rfl <;> rfl
  by_cases hnotif : t = "notification" ∧ strTruthy raw.sessionId = true
  · obtain ⟨ht, hsess⟩ := hnotif
    subst ht
    obtain ⟨ss, hss, hssne⟩ := strTruthy_iff.mp hsess
    have hch : ClaudeCodeAdapter.canHandle raw = true := by
      unfold ClaudeCodeAdapter.canHandle
      rw [h3]
      dsimp only
      rw [if_neg (by decide), if_neg (not_not_intro hsess)]
      rfl
    refine ⟨{ id := some si, timestamp := some n, type := some "notification",
              agentId := raw.sessionId, source := some "claude-code", cwd := raw.cwd,
              message := some (fillStr raw.message ""), level := some "info" }, ?_, ?_⟩
    · rw [normalizeEvent_via_claude envA raw hch]
      simp only [ClaudeCodeAdapter.normalize, h3, Option.getD_some, hsid, hsn,
        fillStr_truthy hsi, fillNum_truthy hn]
    · refine generic_output_fixpoint envB _ "notification" ?_ rfl rfl rfl ?_ ?_ ?_ ?_ ?_
      · show raw.sessionId.isSome = true
        rw [hss]
        rfl
      · exact claude_declines_no_session _ rfl
      · show strTruthy (some si) = true
        simp [strTruthy, hsi]
      · show numTruthy (some n) = true
        simp [numTruthy, hn]
      · exact fun hcon => absurd hcon (by decide)
      · exact fun hcon => absurd hcon (by decide)
  · have hclaude : ClaudeCodeAdapter.canHandle raw = false := by
      by_cases hno : t = "notification"
      · subst hno
        refine claude_declines_no_session raw ?_
        rcases Bool.eq_false_or_eq_true (strTruthy raw.sessionId) with h | h
        · exact absurd ⟨rfl, h⟩ hnotif
        · exact h
      · refine claude_declines raw t h3 ?_
        rcases h4 with rfl | rfl | rfl | rfl | rfl | rfl | rfl | rfl | rfl | rfl <;>
          first | rfl | exact absurd rfl hno
    have h5' : t = "tool_start" ∨ t = "tool_end" →
        ∃ tl, raw.tool = some (.obj tl) ∧ tl.name.isSome = true := by
      intro htt
      obtain ⟨tl, ha, hb, _, _⟩ := h5 htt
      exact ⟨tl, ha, hb⟩
    refine ⟨{ raw with
              id := some si, timestamp := some n,
              tool := if t = "tool_start" ∨ t = "tool_end" then patchTool envA raw.tool
                else raw.tool }, ?_, ?_⟩
    · rw [normalizeEvent_via_generic envA raw hclaude (generic_accepts raw t h3 h1 h2 hvalid),
          genericNormalize_eq envA raw t h3 hvalid h5', hsid, hsn, fillStr_truthy hsi,
          fillNum_truthy hn]
    · have hysess : ({ raw with
          id := some si, timestamp := some n,
          tool := if t = "tool_start" ∨ t = "tool_end" then patchTool envA raw.tool
            else raw.tool } : Obj).sessionId = raw.sessionId := rfl
      refine generic_output_fixpoint envB _ t h1 h2 h3 hvalid ?_ ?_ ?_ ?_ ?_
      · by_cases hno : t = "notification"
        · subst hno
          refine claude_declines_no_session _ ?_
          rw [hysess]
          rcases Bool.eq_false_or_eq_true (strTruthy raw.sessionId) with h | h
          · exact absurd ⟨rfl, h⟩ hnotif
          · exact h
        · refine claude_declines _ t h3 ?_
          rcases h4 with rfl | rfl | rfl | rfl | rfl | rfl | rfl | rfl | rfl | rfl <;>
            first | rfl | exact absurd rfl hno
      · show strTruthy (some si) = true
        simp [strTruthy, hsi]
      · show numTruthy (some n) = true
        simp [numTruthy, hn]
      · intro htt
        obtain ⟨tl, htool, hname, hcat, hidt⟩ := h5 htt
        refine ⟨{ tl with
                  category := GenericAdapter.fixCategory tl.category,
                  id := GenericAdapter.fixToolId tl.id envA.freshToolId }, ?_, ?_⟩
        · show (if t = "tool_start" ∨ t = "tool_end" then patchTool envA raw.tool
                else raw.tool) = _
          rw [if_pos htt, htool]
          simp only [patchTool]
        · exact hname
      · intro htt
        obtain ⟨tl, htool, hname, hcat, hidt⟩ := h5 htt
        show patchTool envB (if t = "tool_start" ∨ t = "tool_end" then patchTool envA raw.tool
             else raw.tool) = _
        rw [if_pos htt, htool]
        simp only [patchTool]
        rw [fixCategory_idem, fixToolId_truthy hidt, fixToolId_truthy hidt]

/-- Witness for C8 at a fully-populated canonical `tool_start` payload:
the first pass returns it unchanged and the second pass (with a
different clock and fresh ids) fixes nothing. -/
theorem C8_normalize_idempotent_witness :
    ∃ y, normalizeEvent env0 fullToolRaw = .ok (some y) ∧
      normalizeEvent env1 y = .ok (some y) :=
  C8_normalize_idempotent env0 env1 fullToolRaw "tool_start" rfl rfl rfl (Or.inl rfl)
    (by decide) (by decide)
    (fun _ => ⟨{ name := some "T", category := some "read", id := some "t1" },
      rfl, rfl, by decide, by decide⟩)

end ClawWorld
